import Mathlib

/-!
Shallow embedding of the session-creation orchestration and recency-cache
subsystem of the `modular-onboarding-scoring` repository.

The embedding covers:
* `parseRawInput` (src/api/src/services/onboarding.service.ts),
* `ScoringClient.getScore` (src/api/src/services/scoring.client.ts),
* `RedisService.addRecentSession` / `getRecentSessions`
  (src/api/src/services/redis.service.ts),
* `OnboardingService.createSession` (src/api/src/services/onboarding.service.ts),
* the cache configuration constants (src/api/src/config.ts).

JavaScript runtime values are modelled by the inductive type `JsValue`;
property access, truthiness and `Array.isArray` are modelled faithfully.
External effects (the Postgres pool, the axios call, the Redis pipeline)
are modelled by passing their outcomes in explicitly: each `await` that can
throw is represented by an `Except`/outcome value in an `Env` record, and
`createSession` is a pure function of the environment and the store state.
-/

namespace Onboarding

/-- A JavaScript runtime value (the JSON-compatible fragment plus
`undefined`), used for `rawInput`, `parsedData` sub-fields and cached
entries.  Numbers are modelled as integers: no claim in scope depends on
non-integral arithmetic. -/
inductive JsValue : Type where
  | undefined : JsValue
  | null : JsValue
  | bool (b : Bool) : JsValue
  | num (n : Int) : JsValue
  | str (s : String) : JsValue
  | arr (xs : List JsValue) : JsValue
  | obj (fields : List (String × JsValue)) : JsValue
deriving Repr

/-- JavaScript property access `v[k]`: on an object, the value of the first
binding of `k` (or `undefined` when `k` is absent); on every other value,
`undefined` (for the primitives appearing here, property access yields
`undefined`; `null`/`undefined` receivers would throw in JS but the source
only dereferences values it has already found truthy). -/
def JsValue.get (v : JsValue) (k : String) : JsValue :=
  match v with
  | .obj fields =>
    match fields.lookup k with
    | some w => w
    | none => .undefined
  | _ => .undefined

/-- JavaScript truthiness, as used by `if (rawInput.personalInfo)` etc. -/
def JsValue.truthy : JsValue → Bool
  | .undefined => false
  | .null => false
  | .bool b => b
  | .num n => n != 0
  | .str s => !s.isEmpty
  | .arr _ => true
  | .obj _ => true

/-- `Array.isArray`. -/
def JsValue.isArray : JsValue → Bool
  | .arr _ => true
  | _ => false

/-- The array elements of an array value, `[]` otherwise. -/
def JsValue.asArray : JsValue → List JsValue
  | .arr xs => xs
  | _ => []

/-- The `personalInfo` block of `ParsedData` as built by `parseRawInput`:
the four recognized sub-fields, each copied verbatim (possibly
`undefined`). -/
structure PersonalInfo where
  age : JsValue
  income : JsValue
  employment : JsValue
  education : JsValue
deriving Repr

/-- The `preferences` block of `ParsedData` as built by `parseRawInput`. -/
structure Preferences where
  riskTolerance : JsValue
  investmentGoals : JsValue
  timeHorizon : JsValue
deriving Repr

/-- `ParsedData` (validation/onboarding.schema.ts): every top-level section
is optional and simply missing when `parseRawInput` did not set it. -/
structure ParsedData where
  personalInfo : Option PersonalInfo := none
  preferences : Option Preferences := none
  flags : Option (List JsValue) := none
deriving Repr

/-- `OnboardingService.parseRawInput` (onboarding.service.ts).  Each
top-level section is copied only when the corresponding property of
`rawInput` is truthy, mirroring `if (rawInput.personalInfo) { ... }`;
`flags` is stored as-is when it is an array and replaced by `[]` otherwise,
mirroring `Array.isArray(rawInput.flags) ? rawInput.flags : []`. -/
def parseRawInput (rawInput : JsValue) : ParsedData :=
  let parsed : ParsedData := {}
  let parsed :=
    if (rawInput.get "personalInfo").truthy then
      { parsed with
        personalInfo := some
          { age := (rawInput.get "personalInfo").get "age"
            income := (rawInput.get "personalInfo").get "income"
            employment := (rawInput.get "personalInfo").get "employment"
            education := (rawInput.get "personalInfo").get "education" } }
    else parsed
  let parsed :=
    if (rawInput.get "preferences").truthy then
      { parsed with
        preferences := some
          { riskTolerance := (rawInput.get "preferences").get "riskTolerance"
            investmentGoals := (rawInput.get "preferences").get "investmentGoals"
            timeHorizon := (rawInput.get "preferences").get "timeHorizon" } }
    else parsed
  let parsed :=
    if (rawInput.get "flags").truthy then
      { parsed with
        flags := some (if (rawInput.get "flags").isArray
                       then (rawInput.get "flags").asArray
                       else []) }
    else parsed
  parsed

/-- `ScoreResponse` (scoring.client.ts): the body of a successful engine
reply as the client consumes it (`response.data`). -/
structure ScoreResponse where
  score : Int
  explanation : String
deriving Repr, DecidableEq

/-- The information the `catch` block of `ScoringClient.getScore` inspects
on a thrown axios error: whether `axios.isAxiosError(error)` holds, the
error `code`, and the HTTP status of `error.response` when a response was
received. -/
structure AxiosErrorInfo where
  isAxiosError : Bool
  code : Option String
  responseStatus : Option Nat
deriving Repr, DecidableEq

/-- The outcome of the single `axios.post` performed by
`ScoringClient.getScore`: either the engine replied with a body, or the
call threw. -/
inductive AxiosOutcome : Type where
  | ok (data : ScoreResponse) : AxiosOutcome
  | err (e : AxiosErrorInfo) : AxiosOutcome
deriving Repr, DecidableEq

/-- The request timeout passed to axios in `ScoringClient.getScore`
(milliseconds). -/
def scoringTimeoutMs : Nat := 30000

namespace ScoringClient

/-- `ScoringClient.getScore` (scoring.client.ts), as a function of the
outcome of its single `axios.post` call.  A successful response's `data`
is returned unchanged; a thrown error is classified by the `catch` block:
`ECONNREFUSED`/`ETIMEDOUT` axios errors become `SCORER_UNREACHABLE`, a 401
response becomes `SCORER_UNAUTHORIZED`, everything else `SCORER_ERROR`. -/
def getScore (outcome : AxiosOutcome) : Except String ScoreResponse :=
  match outcome with
  | .ok data => .ok data
  | .err e =>
    if e.isAxiosError &&
        (e.code == some "ECONNREFUSED" || e.code == some "ETIMEDOUT") then
      .error "SCORER_UNREACHABLE"
    else if e.isAxiosError && e.responseStatus == some 401 then
      .error "SCORER_UNAUTHORIZED"
    else
      .error "SCORER_ERROR"

end ScoringClient

/-- `config.cache` (config.ts). -/
structure CacheConfig where
  recentSessionsLimit : Nat
  recentSessionsTtl : Nat

/-- `config.cache = { recentSessionsLimit: 10, recentSessionsTtl: 86400 }`. -/
def config.cache : CacheConfig :=
  { recentSessionsLimit := 10, recentSessionsTtl := 86400 }

/-- `RecentSessionSummary` (validation/onboarding.schema.ts): the
projection `{id, createdAt, score}` cached per user. -/
structure RecentSessionSummary where
  id : String
  createdAt : String
  score : Int
deriving Repr, DecidableEq

/-- The `JSON.stringify` image of a `RecentSessionSummary`, kept at the
value level: the object `{id, createdAt, score}`.  The
stringify-on-append / parse-on-read pair of the source is modelled as
transporting this value tree unchanged, which is exact for trees built
from strings and numbers. -/
def encodeSummary (s : RecentSessionSummary) : JsValue :=
  .obj [("id", .str s.id), ("createdAt", .str s.createdAt),
        ("score", .num s.score)]

/-- Structural read-back of a cached entry as a `RecentSessionSummary`:
defined so that recovering the summary from its serialized form can be
stated; the source itself performs no such validation (`JSON.parse` output
is used as-is). -/
def decodeSummary (v : JsValue) : Option RecentSessionSummary :=
  match v.get "id", v.get "createdAt", v.get "score" with
  | .str i, .str c, .num n => some ⟨i, c, n⟩
  | _, _, _ => none

/-- One Redis key's state: the stored list (newest first) and the absolute
expiry time set by the last `expire` command. -/
structure CacheEntry where
  items : List JsValue
  expiresAt : Nat
deriving Repr

/-- The Redis store: a partial map from keys to list entries. -/
def RedisState : Type := String → Option CacheEntry

/-- Point update of the Redis store. -/
def RedisState.set (st : RedisState) (k : String) (e : CacheEntry) :
    RedisState :=
  fun k2 => if k2 = k then some e else st k2

/-- The live list at a key: `[]` when the key is absent or its TTL has
elapsed (Redis deletes expired keys). -/
def RedisState.liveItems (st : RedisState) (now : Nat) (k : String) :
    List JsValue :=
  match st k with
  | none => []
  | some e => if e.expiresAt ≤ now then [] else e.items

namespace RedisService

/-- `RedisService.getRecentSessionsKey` (redis.service.ts). -/
def getRecentSessionsKey (userId : String) : String :=
  "onboarding:recent:" ++ userId

/-- `RedisService.addRecentSession` (redis.service.ts).  `redisOk` is the
outcome of the pipeline `exec`: on failure the internal `catch` swallows
the error and the store is unchanged.  On success the pipeline atomically
performs `lpush key summaryJson`, `ltrim key 0 (limit-1)` and
`expire key ttl`. -/
def addRecentSession (redisOk : Bool) (now : Nat) (userId : String)
    (sessionSummary : RecentSessionSummary) (st : RedisState) : RedisState :=
  if redisOk then
    let key := getRecentSessionsKey userId
    let old := st.liveItems now key
    st.set key
      { items := (encodeSummary sessionSummary :: old).take
          config.cache.recentSessionsLimit
        expiresAt := now + config.cache.recentSessionsTtl }
  else st

/-- `RedisService.getRecentSessions` (redis.service.ts): `lrange key 0 -1`,
each entry `JSON.parse`d (modelled as the stored value tree itself);
`redisOk = false` models the `catch` branch returning `[]`. -/
def getRecentSessions (redisOk : Bool) (now : Nat) (userId : String)
    (st : RedisState) : List JsValue :=
  if redisOk then st.liveItems now (getRecentSessionsKey userId)
  else []

end RedisService

/-- `OnboardingSession` (validation/onboarding.schema.ts): both the durable
row of `onboarding_sessions` and the view returned by `createSession` have
this shape (`score`/`scoreExplanation` are `null`able, modelled as
`Option`). -/
structure OnboardingSession where
  id : String
  userId : String
  createdAt : String
  rawInput : JsValue
  parsedData : ParsedData
  score : Option Int
  scoreExplanation : Option String
  sourceIp : Option String
  userAgent : Option String
deriving Repr

/-- `CreateOnboardingRequest` (validation/onboarding.schema.ts) as the
service receives it. -/
structure CreateOnboardingRequest where
  userId : String
  rawInput : JsValue
deriving Repr

/-- `x || null` on an optional string argument, as applied to
`sourceIp`/`userAgent` in `createSession`: `undefined` and the empty
string both become `null`. -/
def orNull (x : Option String) : Option String :=
  match x with
  | some s => if s.isEmpty then none else some s
  | none => none

/-- The outcomes of the external calls awaited by one `createSession`
run, in program order: the initial `INSERT`, the scoring call, the score
`UPDATE`, and the Redis pipeline. -/
structure Env where
  insertResult : Except String Unit
  engineOutcome : AxiosOutcome
  updateResult : Except String Unit
  redisOk : Bool

/-- The shared external state `createSession` reads and writes: the
`onboarding_sessions` table and the Redis store. -/
structure St where
  db : List OnboardingSession
  redis : RedisState

/-- `UPDATE onboarding_sessions SET score = $1, score_explanation = $2
WHERE id = $3`: a partial update of the matching rows, touching no other
field and no other row. -/
def updateScoreRows (db : List OnboardingSession) (id : String)
    (score : Int) (explanation : String) : List OnboardingSession :=
  db.map fun r =>
    if r.id = id then
      { r with score := some score, scoreExplanation := some explanation }
    else r

namespace OnboardingService

/-- `OnboardingService.createSession` (onboarding.service.ts).

Control flow of the source, reproduced here:
* `parseRawInput` runs first;
* the initial `INSERT` (row with `score`/`score_explanation` null) is
  inside the outer `try`; if it throws, the outer `catch` logs and
  rethrows, so the whole call fails with that error;
* the scoring call and the score `UPDATE` share one inner `try/catch`:
  `score`/`scoreExplanation` are assigned from the response *before* the
  `UPDATE`, so when the `UPDATE` throws they keep their values while the
  row keeps its nulls; when the scoring call itself throws, both stay
  null and the `catch` just logs;
* the cache append runs only `if (score !== null)`;
  `redisService.addRecentSession` never throws (its own `catch` swallows
  pipeline failures);
* the view is assembled from the local variables, not re-read from the
  store. -/
def createSession (env : Env) (sessionId : String) (createdAt : String)
    (now : Nat) (request : CreateOnboardingRequest)
    (sourceIp userAgent : Option String) (st : St) :
    Except String (OnboardingSession × St) :=
  let parsedData := parseRawInput request.rawInput
  match env.insertResult with
  | .error e => .error e
  | .ok _ =>
    let row : OnboardingSession :=
      { id := sessionId
        userId := request.userId
        createdAt := createdAt
        rawInput := request.rawInput
        parsedData := parsedData
        score := none
        scoreExplanation := none
        sourceIp := orNull sourceIp
        userAgent := orNull userAgent }
    let db1 := st.db ++ [row]
    match ScoringClient.getScore env.engineOutcome with
    | .error _ =>
      .ok ({ row with score := none, scoreExplanation := none },
           { db := db1, redis := st.redis })
    | .ok resp =>
      let db2 :=
        match env.updateResult with
        | .ok _ => updateScoreRows db1 sessionId resp.score resp.explanation
        | .error _ => db1
      let redis2 := RedisService.addRecentSession env.redisOk now
        request.userId
        { id := sessionId, createdAt := createdAt, score := resp.score }
        st.redis
      .ok ({ row with score := some resp.score
                      scoreExplanation := some resp.explanation },
           { db := db2, redis := redis2 })

end OnboardingService

/-- Modelled from the spec: the scoring engine (the FastAPI service under
`src/scorer/`, whose implementation is not present in the sources — only
its README) replies with an integer score clamped to [0,100] together with
a human-readable explanation.  Spec: "response `{score: int[0,100],
explanation: string}`"; "the scoring engine's own rule logic (base score,
adjustments, clamping to [0,100]) is out of scope". -/
def EngineContractOk (outcome : AxiosOutcome) : Prop :=
  ∀ r, outcome = .ok r → 0 ≤ r.score ∧ r.score ≤ 100

/-! Sample values used by the witness theorems. -/

/-- An empty Redis store. -/
def emptyRedis : RedisState := fun _ => none

/-- An empty external state. -/
def st0 : St := { db := [], redis := emptyRedis }

/-- A sample validated request. -/
def req0 : CreateOnboardingRequest :=
  { userId := "123e4567-e89b-12d3-a456-426614174000"
    rawInput := .obj [("flags", .arr [])] }

/-- An environment whose initial insert fails. -/
def envInsertFail : Env :=
  { insertResult := .error "connection terminated"
    engineOutcome := .ok { score := 78, explanation := "baseline" }
    updateResult := .ok ()
    redisOk := true }

/-- An environment whose scoring call is refused (engine down). -/
def envEngineDown : Env :=
  { insertResult := .ok ()
    engineOutcome := .err
      { isAxiosError := true, code := some "ECONNREFUSED",
        responseStatus := none }
    updateResult := .ok ()
    redisOk := true }

/-- An environment where scoring succeeds but the score update fails. -/
def envUpdateFail : Env :=
  { insertResult := .ok ()
    engineOutcome := .ok { score := 78, explanation := "baseline" }
    updateResult := .error "connection terminated"
    redisOk := true }

/-- A fully healthy environment. -/
def envHealthy : Env :=
  { insertResult := .ok ()
    engineOutcome := .ok { score := 78, explanation := "baseline" }
    updateResult := .ok ()
    redisOk := true }

/-! ## Claims -/

/-- **C2.** For every validated request, if the initial durable-store
insert fails, `createSession` fails as a whole: the error propagates to
the caller (the outer `catch` logs and rethrows) and no session view is
returned. -/
theorem createSession_insert_failure_fatal
    (env : Env) (sessionId createdAt : String) (now : Nat)
    (request : CreateOnboardingRequest) (sourceIp userAgent : Option String)
    (st : St) (e : String) (h : env.insertResult = .error e) :
    OnboardingService.createSession env sessionId createdAt now request
      sourceIp userAgent st = .error e := by
  unfold OnboardingService.createSession
  rw [h]

/-- Witness for C2: with a concrete failing insert, `createSession`
returns exactly that error. -/
theorem createSession_insert_failure_fatal_witness :
    envInsertFail.insertResult = .error "connection terminated" ∧
    OnboardingService.createSession envInsertFail "s1" "2026-01-01T00:00:00Z"
      0 req0 none none st0 = .error "connection terminated" :=
  ⟨rfl, createSession_insert_failure_fatal envInsertFail "s1"
    "2026-01-01T00:00:00Z" 0 req0 none none st0 "connection terminated" rfl⟩

/-- **C1.** For every validated request, if the insert succeeds but the
scoring call fails for any reason, `createSession` still succeeds and
returns the view with `score` and `scoreExplanation` null; the inserted
row stays in the table (no rollback or delete — the table only grows by
that one row), and the Redis store — in particular the user's recency
list — is completely untouched.  The model performs the single scoring
attempt `env.engineOutcome`; no retry exists in the control flow. -/
theorem createSession_scoring_failure_absorbed
    (env : Env) (sessionId createdAt : String) (now : Nat)
    (request : CreateOnboardingRequest) (sourceIp userAgent : Option String)
    (st : St) (k : String)
    (hIns : env.insertResult = .ok ())
    (hScore : ScoringClient.getScore env.engineOutcome = .error k) :
    ∃ view st2,
      OnboardingService.createSession env sessionId createdAt now request
        sourceIp userAgent st = .ok (view, st2) ∧
      view.score = none ∧
      view.scoreExplanation = none ∧
      (∃ row, st2.db = st.db ++ [row] ∧ row.id = sessionId ∧
        row.score = none) ∧
      st2.redis = st.redis := by
  unfold OnboardingService.createSession
  rw [hIns, hScore]
  exact ⟨_, _, rfl, rfl, rfl, ⟨_, rfl, rfl, rfl⟩, rfl⟩

/-- Witness for C1: engine connection refused, insert fine. -/
theorem createSession_scoring_failure_absorbed_witness :
    envEngineDown.insertResult = .ok () ∧
    ScoringClient.getScore envEngineDown.engineOutcome =
      .error "SCORER_UNREACHABLE" ∧
    (∃ view st2,
      OnboardingService.createSession envEngineDown "s1"
        "2026-01-01T00:00:00Z" 0 req0 none none st0 = .ok (view, st2) ∧
      view.score = none ∧
      view.scoreExplanation = none ∧
      (∃ row, st2.db = st0.db ++ [row] ∧ row.id = "s1" ∧
        row.score = none) ∧
      st2.redis = st0.redis) :=
  ⟨rfl, rfl, createSession_scoring_failure_absorbed envEngineDown "s1"
    "2026-01-01T00:00:00Z" 0 req0 none none st0 "SCORER_UNREACHABLE" rfl rfl⟩

/-- **C7.** If the scoring call succeeds but the durable score update
fails, `createSession` still succeeds (the failure is caught by the same
inner `catch`, logged, and not surfaced) and the returned view carries the
score and explanation obtained in the scoring step — `score` and
`scoreExplanation` were assigned before the `UPDATE` was attempted, so
the view is exactly the view a successful update would have produced. -/
theorem createSession_update_failure_best_effort
    (env : Env) (sessionId createdAt : String) (now : Nat)
    (request : CreateOnboardingRequest) (sourceIp userAgent : Option String)
    (st : St) (resp : ScoreResponse) (e : String)
    (hIns : env.insertResult = .ok ())
    (hScore : ScoringClient.getScore env.engineOutcome = .ok resp)
    (hUpd : env.updateResult = .error e) :
    ∃ view st2 st3,
      OnboardingService.createSession env sessionId createdAt now request
        sourceIp userAgent st = .ok (view, st2) ∧
      view.score = some resp.score ∧
      view.scoreExplanation = some resp.explanation ∧
      OnboardingService.createSession { env with updateResult := .ok () }
        sessionId createdAt now request sourceIp userAgent st =
        .ok (view, st3) := by
  unfold OnboardingService.createSession
  rw [hIns, hScore, hUpd]
  exact ⟨_, _, _, rfl, rfl, rfl, rfl⟩

/-- Witness for C7: concrete run where the update fails; the view still
shows score 78. -/
theorem createSession_update_failure_best_effort_witness :
    envUpdateFail.insertResult = .ok () ∧
    ScoringClient.getScore envUpdateFail.engineOutcome =
      .ok { score := 78, explanation := "baseline" } ∧
    envUpdateFail.updateResult = .error "connection terminated" ∧
    (∃ view st2 st3,
      OnboardingService.createSession envUpdateFail "s1"
        "2026-01-01T00:00:00Z" 0 req0 none none st0 = .ok (view, st2) ∧
      view.score = some 78 ∧
      view.scoreExplanation = some "baseline" ∧
      OnboardingService.createSession
        { envUpdateFail with updateResult := .ok () } "s1"
        "2026-01-01T00:00:00Z" 0 req0 none none st0 = .ok (view, st3)) :=
  ⟨rfl, rfl, rfl, createSession_update_failure_best_effort envUpdateFail
    "s1" "2026-01-01T00:00:00Z" 0 req0 none none st0
    { score := 78, explanation := "baseline" } "connection terminated"
    rfl rfl rfl⟩

/-- Every thrown scoring error is classified as exactly one of the three
kinds (helper shared by several proofs). -/
theorem getScore_err_exists (e : AxiosErrorInfo) :
    ∃ k, ScoringClient.getScore (.err e) = .error k ∧
      (k = "SCORER_UNREACHABLE" ∨ k = "SCORER_UNAUTHORIZED" ∨
        k = "SCORER_ERROR") := by
  simp only [ScoringClient.getScore]
  split
  · exact ⟨_, rfl, Or.inl rfl⟩
  split
  · exact ⟨_, rfl, Or.inr (Or.inl rfl)⟩
  · exact ⟨_, rfl, Or.inr (Or.inr rfl)⟩

/-- **C3.** Provided the engine honours its spec-modelled contract
(`EngineContractOk`: a successful reply carries an integer score in
[0,100]), every view returned by `createSession` has its `score`, when
present, in [0,100] — the client and the orchestrator pass the engine's
score through unchanged, and a failed scoring call leaves it null. -/
theorem createSession_score_in_range
    (env : Env) (sessionId createdAt : String) (now : Nat)
    (request : CreateOnboardingRequest) (sourceIp userAgent : Option String)
    (st : St) (view : OnboardingSession) (st2 : St) (s : Int)
    (hEng : EngineContractOk env.engineOutcome)
    (hRun : OnboardingService.createSession env sessionId createdAt now
      request sourceIp userAgent st = .ok (view, st2))
    (hs : view.score = some s) :
    0 ≤ s ∧ s ≤ 100 := by
  unfold OnboardingService.createSession at hRun
  cases hins : env.insertResult with
  | error e => rw [hins] at hRun; exact absurd hRun (by simp)
  | ok u =>
    rw [hins] at hRun
    cases heng : env.engineOutcome with
    | err e =>
      obtain ⟨k, hk, -⟩ := getScore_err_exists e
      rw [heng, hk] at hRun
      simp at hRun
      obtain ⟨hview, -⟩ := hRun
      rw [← hview] at hs
      exact absurd hs (by simp)
    | ok r =>
      rw [heng] at hRun
      simp [ScoringClient.getScore] at hRun
      obtain ⟨hview, -⟩ := hRun
      rw [← hview] at hs
      simp at hs
      rw [← hs]
      exact hEng r heng

/-- Witness for C3: the healthy environment returns score 78 ∈ [0,100]. -/
theorem createSession_score_in_range_witness :
    EngineContractOk envHealthy.engineOutcome ∧
    (0 ≤ (78 : Int) ∧ (78 : Int) ≤ 100) := by
  have hEng : EngineContractOk envHealthy.engineOutcome := by
    intro r hr
    have h2 : AxiosOutcome.ok { score := 78, explanation := "baseline" } =
        AxiosOutcome.ok r := hr
    injection h2 with h3
    rw [← h3]
    exact ⟨by decide, by decide⟩
  exact ⟨hEng, createSession_score_in_range envHealthy "s1"
    "2026-01-01T00:00:00Z" 0 req0 none none st0 _ _ 78 hEng rfl rfl⟩

/-- **C4.** `score` and `scoreExplanation` travel together: the returned
view has both set (after a successful scoring call — the modelled engine
reply always carries both fields) or both null, and every row of the
resulting table pairs them as well, provided every pre-existing row did —
the initial insert writes both as null and the score update sets both at
once. -/
theorem createSession_score_explanation_paired
    (env : Env) (sessionId createdAt : String) (now : Nat)
    (request : CreateOnboardingRequest) (sourceIp userAgent : Option String)
    (st : St) (view : OnboardingSession) (st2 : St)
    (hRun : OnboardingService.createSession env sessionId createdAt now
      request sourceIp userAgent st = .ok (view, st2))
    (hDb : ∀ r ∈ st.db, r.score.isSome = r.scoreExplanation.isSome) :
    view.score.isSome = view.scoreExplanation.isSome ∧
    ∀ r ∈ st2.db, r.score.isSome = r.scoreExplanation.isSome := by
  unfold OnboardingService.createSession at hRun
  cases hins : env.insertResult with
  | error e => rw [hins] at hRun; exact absurd hRun (by simp)
  | ok u =>
    rw [hins] at hRun
    cases heng : env.engineOutcome with
    | err e =>
      obtain ⟨k, hk, -⟩ := getScore_err_exists e
      rw [heng, hk] at hRun
      simp at hRun
      obtain ⟨hview, hst⟩ := hRun
      subst hview
      refine ⟨rfl, ?_⟩
      intro r hr
      rw [← hst] at hr
      simp at hr
      rcases hr with hr | hr
      · exact hDb r hr
      · subst hr; rfl
    | ok resp =>
      rw [heng] at hRun
      simp [ScoringClient.getScore] at hRun
      obtain ⟨hview, hst⟩ := hRun
      subst hview
      refine ⟨rfl, ?_⟩
      intro r hr
      rw [← hst] at hr
      cases hupd : env.updateResult with
      | ok u2 =>
        rw [hupd] at hr
        simp only [updateScoreRows, List.mem_map, List.mem_append,
          List.mem_singleton] at hr
        obtain ⟨a, ha, hra⟩ := hr
        rcases ha with ha | ha
        · rw [← hra]
          split
          · rfl
          · exact hDb a ha
        · rw [← hra, ha]
          split <;> rfl
      | error e2 =>
        rw [hupd] at hr
        simp at hr
        rcases hr with hr | hr
        · exact hDb r hr
        · subst hr; rfl

/-- Witness for C4: a healthy run pairs `score` and `scoreExplanation` in
the view and all rows, starting from the empty table. -/
theorem createSession_score_explanation_paired_witness :
    (∀ r ∈ st0.db, r.score.isSome = r.scoreExplanation.isSome) ∧
    (∃ view st2,
      OnboardingService.createSession envHealthy "s1"
        "2026-01-01T00:00:00Z" 0 req0 none none st0 = .ok (view, st2) ∧
      view.score.isSome = view.scoreExplanation.isSome) := by
  have hDb : ∀ r ∈ st0.db, r.score.isSome = r.scoreExplanation.isSome := by
    intro r hr
    exact absurd hr (List.not_mem_nil r)
  refine ⟨hDb, ?_⟩
  refine ⟨_, _, rfl, ?_⟩
  exact (createSession_score_explanation_paired envHealthy "s1"
    "2026-01-01T00:00:00Z" 0 req0 none none st0 _ _ rfl hDb).1

/-- Effect of one successful append on the user's own list (helper):
the new encoded summary is pushed to the front and the result trimmed to
10 entries, which at the same instant is live (the fresh TTL has not
elapsed). -/
theorem addRecentSession_self_effect (now : Nat) (userId : String)
    (s : RecentSessionSummary) (st : RedisState) :
    (RedisService.addRecentSession true now userId s st).liveItems now
      (RedisService.getRecentSessionsKey userId) =
    encodeSummary s ::
      (st.liveItems now (RedisService.getRecentSessionsKey userId)).take
        9 := by
  simp only [RedisService.addRecentSession, RedisState.liveItems,
    RedisState.set, if_pos, if_true]
  have hexp : ¬ (now + config.cache.recentSessionsTtl ≤ now) := by
    simp only [config.cache]
    omega
  rw [if_neg hexp]
  exact List.take_succ_cons

/-- **C5.** One successful cache append (pipeline `lpush` + `ltrim 0 9` +
`expire`): the resulting list is the new summary followed by the first 9
previous entries (newest first), hence never longer than 10; and when the
list already held 10 entries, exactly the oldest (last) one is evicted. -/
theorem addRecentSession_bound_order_evict
    (now : Nat) (userId : String) (s : RecentSessionSummary)
    (st : RedisState) :
    ((RedisService.addRecentSession true now userId s st).liveItems now
        (RedisService.getRecentSessionsKey userId) =
      encodeSummary s ::
        (st.liveItems now (RedisService.getRecentSessionsKey userId)).take
          9) ∧
    ((RedisService.addRecentSession true now userId s st).liveItems now
        (RedisService.getRecentSessionsKey userId)).length ≤ 10 ∧
    ((st.liveItems now
          (RedisService.getRecentSessionsKey userId)).length = 10 →
      (RedisService.addRecentSession true now userId s st).liveItems now
          (RedisService.getRecentSessionsKey userId) =
        encodeSummary s ::
          (st.liveItems now
            (RedisService.getRecentSessionsKey userId)).dropLast) := by
  have hmain := addRecentSession_self_effect now userId s st
  refine ⟨hmain, ?_, ?_⟩
  · rw [hmain]
    simp only [List.length_cons, List.length_take]
    omega
  · intro hlen
    rw [hmain, List.dropLast_eq_take, hlen]

/-- A Redis store whose list for user `u1` is full (10 entries). -/
def st10 : RedisState := fun k =>
  if k = RedisService.getRecentSessionsKey "u1" then
    some { items := (List.range 10).map fun i => JsValue.num i,
           expiresAt := 100 }
  else none

/-- Witness for C5: appending to a full 10-entry list keeps the first 9 old
entries and drops the 10th. -/
theorem addRecentSession_bound_order_evict_witness :
    (st10.liveItems 0 (RedisService.getRecentSessionsKey "u1")).length =
      10 ∧
    (RedisService.addRecentSession true 0 "u1"
        { id := "s1", createdAt := "t1", score := 78 } st10).liveItems 0
        (RedisService.getRecentSessionsKey "u1") =
      encodeSummary { id := "s1", createdAt := "t1", score := 78 } ::
        (st10.liveItems 0
          (RedisService.getRecentSessionsKey "u1")).dropLast :=
  ⟨rfl,
   (addRecentSession_bound_order_evict 0 "u1"
     { id := "s1", createdAt := "t1", score := 78 } st10).2.2 rfl⟩

/-- **C6.** The scoring gateway performs a single attempt (`getScore` is a
function of the outcome of its one `axios.post`, whose request timeout is
30000 ms) and classifies every thrown error into exactly one of three
kinds: a connection-refused or timed-out axios error yields
`SCORER_UNREACHABLE` (the spec's `ENGINE_UNREACHABLE`), otherwise a 401
axios response yields `SCORER_UNAUTHORIZED` (`ENGINE_UNAUTHORIZED`), and
every remaining failure yields `SCORER_ERROR` (`ENGINE_ERROR`). -/
theorem getScore_single_attempt_classification :
    scoringTimeoutMs = 30000 ∧
    (∀ e : AxiosErrorInfo, ∃ k,
      ScoringClient.getScore (.err e) = .error k ∧
      (k = "SCORER_UNREACHABLE" ∨ k = "SCORER_UNAUTHORIZED" ∨
        k = "SCORER_ERROR")) ∧
    (∀ e : AxiosErrorInfo, e.isAxiosError = true →
      (e.code = some "ECONNREFUSED" ∨ e.code = some "ETIMEDOUT") →
      ScoringClient.getScore (.err e) = .error "SCORER_UNREACHABLE") ∧
    (∀ e : AxiosErrorInfo, e.isAxiosError = true →
      e.code ≠ some "ECONNREFUSED" → e.code ≠ some "ETIMEDOUT" →
      e.responseStatus = some 401 →
      ScoringClient.getScore (.err e) = .error "SCORER_UNAUTHORIZED") ∧
    (∀ e : AxiosErrorInfo,
      (e.isAxiosError = false ∨
        (e.code ≠ some "ECONNREFUSED" ∧ e.code ≠ some "ETIMEDOUT" ∧
          e.responseStatus ≠ some 401)) →
      ScoringClient.getScore (.err e) = .error "SCORER_ERROR") := by
  refine ⟨rfl, getScore_err_exists, ?_, ?_, ?_⟩
  · intro e hax hcode
    simp only [ScoringClient.getScore]
    rw [if_pos]
    simp only [hax, Bool.true_and, Bool.or_eq_true, beq_iff_eq]
    exact hcode
  · intro e hax hc1 hc2 hstatus
    simp only [ScoringClient.getScore]
    rw [if_neg, if_pos]
    · simp only [hax, hstatus, Bool.true_and, beq_iff_eq]
    · simp only [hax, Bool.true_and, Bool.or_eq_true, beq_iff_eq]
      rintro (h | h)
      · exact hc1 h
      · exact hc2 h
  · intro e h
    simp only [ScoringClient.getScore]
    rcases h with h | ⟨hc1, hc2, hstatus⟩
    · rw [if_neg, if_neg]
      · simp [h]
      · simp [h]
    · rw [if_neg, if_neg]
      · simp only [Bool.and_eq_true, beq_iff_eq]
        rintro ⟨-, h401⟩
        exact hstatus h401
      · simp only [Bool.and_eq_true, Bool.or_eq_true, beq_iff_eq]
        rintro ⟨-, h | h⟩
        · exact hc1 h
        · exact hc2 h

/-- Witness for C6: one concrete error of each kind. -/
theorem getScore_single_attempt_classification_witness :
    ScoringClient.getScore
      (.err { isAxiosError := true, code := some "ETIMEDOUT",
              responseStatus := none }) = .error "SCORER_UNREACHABLE" ∧
    ScoringClient.getScore
      (.err { isAxiosError := true, code := none,
              responseStatus := some 401 }) =
      .error "SCORER_UNAUTHORIZED" ∧
    ScoringClient.getScore
      (.err { isAxiosError := false, code := none,
              responseStatus := none }) = .error "SCORER_ERROR" :=
  ⟨getScore_single_attempt_classification.2.2.1 _ rfl (Or.inr rfl),
   getScore_single_attempt_classification.2.2.2.1 _ rfl (by decide)
     (by decide) rfl,
   getScore_single_attempt_classification.2.2.2.2 _ (Or.inl rfl)⟩

/-- **C8, counterexample.** The claim "flags is defaulted to an empty
sequence whenever it is present but not a sequence type" fails on the
input `{flags: 0}`: the property is present and is not an array, yet
`parseRawInput` omits `flags` from `parsedData` (the guard
`if (rawInput.flags)` tests JavaScript truthiness, and `0` is falsy), so
`parsedData.flags` is absent rather than the empty sequence. -/
theorem parseRawInput_falsy_flags_counterexample :
    ((JsValue.obj [("flags", JsValue.num 0)]).get "flags" =
      JsValue.num 0) ∧
    ((JsValue.obj [("flags", JsValue.num 0)]).get "flags").isArray =
      false ∧
    (parseRawInput (JsValue.obj [("flags", JsValue.num 0)])).flags =
      none ∧
    (parseRawInput (JsValue.obj [("flags", JsValue.num 0)])).flags ≠
      some [] := by
  refine ⟨rfl, rfl, rfl, ?_⟩
  intro h
  have h2 : (none : Option (List JsValue)) = some [] := h
  exact Option.noConfusion h2

/-- **C8, amended.** `parseRawInput` copies only the recognized
sub-fields: when truthy, `personalInfo` contributes exactly
`{age, income, employment, education}` and `preferences` exactly
`{riskTolerance, investmentGoals, timeHorizon}`; an array `flags` is
copied as-is; a *truthy* non-array `flags` is defaulted to the empty
sequence; and a falsy (in particular absent) `flags` or top-level section
is omitted from `parsedData` rather than defaulted. -/
theorem parseRawInput_characterization (r : JsValue) :
    ((r.get "personalInfo").truthy = false →
      (parseRawInput r).personalInfo = none) ∧
    ((r.get "personalInfo").truthy = true →
      (parseRawInput r).personalInfo = some
        { age := (r.get "personalInfo").get "age",
          income := (r.get "personalInfo").get "income",
          employment := (r.get "personalInfo").get "employment",
          education := (r.get "personalInfo").get "education" }) ∧
    ((r.get "preferences").truthy = false →
      (parseRawInput r).preferences = none) ∧
    ((r.get "preferences").truthy = true →
      (parseRawInput r).preferences = some
        { riskTolerance := (r.get "preferences").get "riskTolerance",
          investmentGoals := (r.get "preferences").get "investmentGoals",
          timeHorizon := (r.get "preferences").get "timeHorizon" }) ∧
    ((r.get "flags").truthy = false → (parseRawInput r).flags = none) ∧
    (∀ xs, r.get "flags" = JsValue.arr xs →
      (parseRawInput r).flags = some xs) ∧
    ((r.get "flags").truthy = true → (r.get "flags").isArray = false →
      (parseRawInput r).flags = some []) := by
  refine ⟨?_, ?_, ?_, ?_, ?_, ?_, ?_⟩
  · intro h
    simp [parseRawInput, h, apply_ite ParsedData.personalInfo]
  · intro h
    simp [parseRawInput, h, apply_ite ParsedData.personalInfo]
  · intro h
    simp [parseRawInput, h, apply_ite ParsedData.preferences]
  · intro h
    simp [parseRawInput, h, apply_ite ParsedData.preferences]
  · intro h
    simp [parseRawInput, h, apply_ite ParsedData.flags]
  · intro xs hxs
    simp [parseRawInput, hxs, apply_ite ParsedData.flags, JsValue.truthy,
      JsValue.isArray, JsValue.asArray]
  · intro ht ha
    simp [parseRawInput, ht, ha, apply_ite ParsedData.flags]

/-- Witness for C8 (amended): on
`{personalInfo: {age: 30}, flags: "x"}` the section is copied, the truthy
non-array `flags` becomes `[]`, and the absent `preferences` is
omitted. -/
theorem parseRawInput_characterization_witness :
    (((JsValue.obj [("personalInfo", JsValue.obj [("age", JsValue.num 30)]),
        ("flags", JsValue.str "x")]).get "personalInfo").truthy = true ∧
      ((JsValue.obj [("personalInfo", JsValue.obj [("age", JsValue.num 30)]),
        ("flags", JsValue.str "x")]).get "preferences").truthy = false ∧
      ((JsValue.obj [("personalInfo", JsValue.obj [("age", JsValue.num 30)]),
        ("flags", JsValue.str "x")]).get "flags").truthy = true ∧
      ((JsValue.obj [("personalInfo", JsValue.obj [("age", JsValue.num 30)]),
        ("flags", JsValue.str "x")]).get "flags").isArray = false) ∧
    (parseRawInput (JsValue.obj
        [("personalInfo", JsValue.obj [("age", JsValue.num 30)]),
         ("flags", JsValue.str "x")])).personalInfo = some
      { age := JsValue.num 30, income := JsValue.undefined,
        employment := JsValue.undefined, education := JsValue.undefined } ∧
    (parseRawInput (JsValue.obj
        [("personalInfo", JsValue.obj [("age", JsValue.num 30)]),
         ("flags", JsValue.str "x")])).preferences = none ∧
    (parseRawInput (JsValue.obj
        [("personalInfo", JsValue.obj [("age", JsValue.num 30)]),
         ("flags", JsValue.str "x")])).flags = some [] := by
  refine ⟨⟨rfl, rfl, rfl, rfl⟩, ?_, ?_, ?_⟩
  · exact (parseRawInput_characterization _).2.1 rfl
  · exact (parseRawInput_characterization _).2.2.1 rfl
  · exact (parseRawInput_characterization _).2.2.2.2.2.2 rfl rfl

/-- The Redis key derivation `onboarding:recent:<userId>` is injective in
the user id (helper for C9). -/
theorem getRecentSessionsKey_inj (u1 u2 : String)
    (h : RedisService.getRecentSessionsKey u1 =
      RedisService.getRecentSessionsKey u2) : u1 = u2 := by
  have hd := congrArg String.data h
  simp only [RedisService.getRecentSessionsKey, String.data_append] at hd
  exact String.ext (List.append_cancel_left hd)

/-- **C9.** Per-user cache isolation: an append for user `u1` leaves the
list read for any other user `u2` unchanged, because the touched Redis
key `onboarding:recent:u1` differs from `onboarding:recent:u2`. -/
theorem addRecentSession_user_isolation
    (okA okR : Bool) (now now2 : Nat) (u1 u2 : String)
    (s : RecentSessionSummary) (st : RedisState) (h : u1 ≠ u2) :
    RedisService.getRecentSessions okR now2 u2
      (RedisService.addRecentSession okA now u1 s st) =
    RedisService.getRecentSessions okR now2 u2 st := by
  cases okA with
  | false => rfl
  | true =>
    cases okR with
    | false => rfl
    | true =>
      simp only [RedisService.getRecentSessions,
        RedisService.addRecentSession, RedisState.liveItems,
        RedisState.set, if_true]
      rw [if_neg]
      intro hk
      exact h (getRecentSessionsKey_inj u2 u1 hk).symm

/-- Witness for C9: appending for `u1` does not create a list for `u2`. -/
theorem addRecentSession_user_isolation_witness :
    ("u1" : String) ≠ "u2" ∧
    RedisService.getRecentSessions true 0 "u2"
      (RedisService.addRecentSession true 0 "u1"
        { id := "s1", createdAt := "t1", score := 78 } emptyRedis) =
    RedisService.getRecentSessions true 0 "u2" emptyRedis :=
  ⟨by decide,
   addRecentSession_user_isolation true true 0 0 "u1" "u2"
     { id := "s1", createdAt := "t1", score := 78 } emptyRedis
     (by decide)⟩

/-- **C10.** Cache round-trip: after a successful append of `s` for a
user, reading that user's recent sessions yields the serialized form of
`s` as the first element, and that serialized form decodes back to `s`
exactly (`JSON.stringify`/`JSON.parse` transport the `{id, createdAt,
score}` value tree unchanged). -/
theorem addRecentSession_roundtrip (now : Nat) (u : String)
    (s : RecentSessionSummary) (st : RedisState) :
    (RedisService.getRecentSessions true now u
        (RedisService.addRecentSession true now u s st)).head? =
      some (encodeSummary s) ∧
    decodeSummary (encodeSummary s) = some s := by
  refine ⟨?_, rfl⟩
  have h := addRecentSession_self_effect now u s st
  simp only [RedisService.getRecentSessions, if_true]
  rw [h]
  rfl

end Onboarding
